import Mathlib

/-!
Verification of the retrieval subsystem of the `ai-portfolio` application.

The embedding translates, file by file, the TypeScript sources into Lean:

* `src/lib/rag/intent.ts`   — intent classification (`classifyIntent`,
  `getSectionsForIntent`, the pattern table);
* `src/lib/portfolio-data.ts` — the structured portfolio data, the canned
  fallback responses and `mapQueryToFallback`;
* `src/lib/rag/chunks.ts`   — chunk corpus construction (`generateChunks`);
* `src/lib/rag/search.ts`   — `cosineSimilarity`, `getFallbackChunks`,
  `ragSearch` (the two embedding calls that cross the network are modelled
  as oracle parameters `embQ`/`embC`);
* `src/lib/cache.ts`        — response cache, rate limiter and daily quota
  counter (the module-level maps become explicit association-list states,
  `Date.now()` becomes an explicit `now : Nat` argument);
* `src/app/api/query/route.ts` — the `POST` handler (the `generateObject`
  network call is an oracle parameter; an extra `genCalled` field records
  whether the handler reached the generation call).

JavaScript numbers holding times/counters are modelled as `Nat`, embedding
vectors as `List ℝ`.  JavaScript's stable `Array.prototype.sort` is modelled
by a stable insertion sort (`sortResults`, `sortPatterns`).
-/

namespace Portfolio

/-! ### JavaScript string primitives -/

/-- JS `String.prototype.toLowerCase()` (ASCII range, as used by the data),
written on the character list. -/
def jsToLower (s : String) : String :=
  String.mk (s.toList.map Char.toLower)

/-- JS `String.prototype.includes(sub)`: substring test. -/
def jsIncludes (s sub : String) : Bool :=
  decide (sub.toList <:+: s.toList)

/-- The JS whitespace characters occurring in the data (`\s`, `trim`). -/
def isJsWs (c : Char) : Bool :=
  c = ' ' || c = '\t' || c = '\n' || c = '\r'

/-- JS `String.prototype.trim()`: drop whitespace from both ends, written on
the character list. -/
def jsTrim (s : String) : String :=
  String.mk (((s.toList.dropWhile isJsWs).reverse.dropWhile isJsWs).reverse)

/-- JS `query.toLowerCase().trim()` as used by `classifyIntent` and
`mapQueryToFallback`. -/
def normalizeLowerTrim (q : String) : String :=
  jsTrim (jsToLower q)

/-- JS `query.trim().toLowerCase()` as used by the `POST` handler. -/
def normalizeTrimLower (q : String) : String :=
  jsToLower (jsTrim q)

/-- Replace each maximal whitespace run by a single `'-'`; the `Bool` records
whether the previous character was whitespace. -/
def replaceWsAux : Bool → List Char → List Char
  | _, [] => []
  | prev, c :: cs =>
    if isJsWs c then
      if prev then replaceWsAux true cs else '-' :: replaceWsAux true cs
    else c :: replaceWsAux false cs

/-- JS `s.replace(/\s+/g, '-')`. -/
def replaceWsRuns (s : String) : String :=
  String.mk (replaceWsAux false s.toList)

/-! ### `src/lib/rag/intent.ts` -/

/-- The `type QueryIntent` from `intent.ts`. -/
inductive QueryIntent where
  | project | skills | contact | identity | dsa | creative | community | general
  deriving DecidableEq

/-- The `interface IntentPattern` from `intent.ts`. -/
structure IntentPattern where
  intent : QueryIntent
  keywords : List String
  priority : Nat
  deriving DecidableEq

/-- The `contact` entry of `intentPatterns`. -/
def contactPattern : IntentPattern :=
  ⟨.contact,
   ["contact", "email", "reach", "connect", "social", "linkedin", "github",
    "instagram", "links", "twitter", "devto", "leetcode"], 10⟩

/-- The `dsa` entry of `intentPatterns`. -/
def dsaPattern : IntentPattern :=
  ⟨.dsa,
   ["dsa", "leetcode", "algorithm", "data structure", "competitive",
    "coding practice"], 10⟩

/-- The `project` entry of `intentPatterns`. -/
def projectPattern : IntentPattern :=
  ⟨.project,
   ["project", "projects", "built", "made", "created", "still", "trace",
    "trinera", "localaid", "ravel", "code review", "memory manager",
    "hackathon", "work", "portfolio"], 5⟩

/-- The `skills` entry of `intentPatterns`. -/
def skillsPattern : IntentPattern :=
  ⟨.skills,
   ["skill", "skills", "tech", "technology", "stack", "languages", "know",
    "experience", "expertise", "javascript", "react", "node", "c++", "sql",
    "backend", "frontend", "database"], 5⟩

/-- The `creative` entry of `intentPatterns`. -/
def creativePattern : IntentPattern :=
  ⟨.creative,
   ["video", "editing", "creative", "after effects", "premiere", "capcut",
    "freelance", "visual"], 5⟩

/-- The `community` entry of `intentPatterns`. -/
def communityPattern : IntentPattern :=
  ⟨.community,
   ["open source", "opensource", "contribution", "hacktoberfest", "goose",
    "community", "github contributions"], 5⟩

/-- The `identity` entry of `intentPatterns`. -/
def identityPattern : IntentPattern :=
  ⟨.identity,
   ["who", "about", "introduction", "intro", "summary", "shivam",
    "background", "philosophy", "approach", "learning style"], 3⟩

/-- The `const intentPatterns` from `intent.ts`, in source order. -/
def intentPatterns : List IntentPattern :=
  [contactPattern, dsaPattern, projectPattern, skillsPattern, creativePattern,
   communityPattern, identityPattern]

/-- Stable insertion of a pattern into a priority-descending list: `x` moves
past `y` only when `y.priority` is strictly greater, which is exactly the
ordering JS's stable `sort((a, b) => b.priority - a.priority)` produces. -/
def insertPattern (x : IntentPattern) : List IntentPattern → List IntentPattern
  | [] => [x]
  | y :: ys => if x.priority < y.priority then y :: insertPattern x ys else x :: y :: ys

/-- Stable sort by descending priority, modelling
`[...intentPatterns].sort((a, b) => b.priority - a.priority)`. -/
def sortPatterns : List IntentPattern → List IntentPattern
  | [] => []
  | x :: xs => insertPattern x (sortPatterns xs)

/-- Does `pattern.keywords.some(kw => q.includes(kw))` hold? -/
def patternMatches (q : String) (p : IntentPattern) : Bool :=
  p.keywords.any (fun kw => jsIncludes q kw)

/-- The `for (const pattern of sortedPatterns)` loop of `classifyIntent`:
return the first matching pattern's intent, else `"general"`. -/
def classifyLoop (q : String) : List IntentPattern → QueryIntent
  | [] => .general
  | p :: ps => if patternMatches q p then p.intent else classifyLoop q ps

/-- Function `classifyIntent` from `intent.ts`. -/
def classifyIntent (query : String) : QueryIntent :=
  classifyLoop (normalizeLowerTrim query) (sortPatterns intentPatterns)

/-- Function `getSectionsForIntent` from `intent.ts`. -/
def getSectionsForIntent : QueryIntent → List String
  | .project => ["project", "identity"]
  | .skills => ["skills", "identity"]
  | .contact => ["contact"]
  | .identity => ["identity"]
  | .dsa => ["dsa", "skills"]
  | .creative => ["creative", "identity"]
  | .community => ["community", "identity"]
  | .general => ["identity", "project", "skills", "creative", "community", "contact", "dsa"]

/-! ### `src/lib/portfolio-data.ts` — structured data -/

/-- The `identity` record of `portfolioData`. -/
structure Identity where
  name : String
  role : String
  summary : String
  philosophy : String
  deriving DecidableEq

/-- The `dsa` record of `portfolioData`. -/
structure DsaInfo where
  status : String
  deriving DecidableEq

/-- One entry of `portfolioData.projects`.  Optional TS fields become
`Option`; `links` keeps `Object.entries` insertion order. -/
structure Project where
  name : String
  status : Option String := none
  category : Option String := none
  tagline : Option String := none
  problem : Option String := none
  approach : Option (List String) := none
  behavior : Option String := none
  role : Option String := none
  recognition : Option String := none
  learningFocus : Option String := none
  context : Option String := none
  techStack : Option (List String) := none
  links : Option (List (String × String)) := none
  deriving DecidableEq

/-- The `skills` record of `portfolioData`. -/
structure Skills where
  languages : List String
  backend : List String
  databases : List String
  frontend : List String
  tools : List String
  focus : String
  deriving DecidableEq

/-- The `creativeWork` record of `portfolioData`. -/
structure CreativeWork where
  domain : String
  experience : String
  tools : List String
  perspective : String
  deriving DecidableEq

/-- The `openSourceAndCommunity` record of `portfolioData`. -/
structure OpenSourceAndCommunity where
  programs : List String
  contributions : List String
  learning : String
  deriving DecidableEq

/-- The shape of `portfolioData`; `links` keeps `Object.entries` insertion
order.  `dsa`, `creativeWork` and `openSourceAndCommunity` are `Option`
because `generateChunks` guards on their presence. -/
structure PortfolioData where
  identity : Identity
  links : List (String × String)
  dsa : Option DsaInfo
  projects : List Project
  skills : Skills
  creativeWork : Option CreativeWork
  openSourceAndCommunity : Option OpenSourceAndCommunity
  learningStyle : List String
  deriving DecidableEq

/-- The `const portfolioData` of `portfolio-data.ts`, transcribed verbatim
(apostrophes written as the escape `\x27`). -/
def portfolioData : PortfolioData where
  identity :=
    { name := "Shivam Gawali"
      role := "AI & Data Science Student"
      summary := "I am a college student studying Artificial Intelligence and Data Science with a strong interest in software engineering fundamentals and backend system design. I build small, focused systems to understand how they work internally, prioritizing correctness, clarity, and learning through iteration over feature count or polish."
      philosophy := "I prefer understanding fundamentals deeply before moving to abstractions, and I learn best by building end-to-end systems and documenting mistakes instead of hiding them." }
  links :=
    [("github", "https://github.com/shiv669"),
     ("linkedin", "https://www.linkedin.com/in/shivam-gawali-0b7122224"),
     ("instagram", "https://www.instagram.com/thpersnshivam"),
     ("devto", "https://dev.to/shiv669"),
     ("devpost", "https://devpost.com/shivamgawali585"),
     ("leetcode", "https://leetcode.com/u/Glorious-Vulture/")]
  dsa := some
    { status := "Currently learning DSA and trying to grind LeetCode. I might be early but I am still learning and trying to do DSA in C++ to grasp a strong foundation on every topic." }
  projects :=
    [{ name := "Still"
       status := some "Completed"
       category := some "Web system / community platform"
       tagline := some "A forum where answers expire unless they\x27re still true."
       problem := some "Most technical forums reward popularity and upvotes, even when answers become outdated. This leads to stale information ranking higher than correctness."
       approach := some
         ["Introduced time-based freshness windows depending on topic volatility",
          "Used confidence scores instead of permanent upvotes",
          "Allowed community verification through \x27Still True\x27 and \x27Outdated\x27 signals",
          "Ensured the system works even without AI using deterministic fallbacks"]
       behavior := some "Answers automatically decay over time and can be marked stale regardless of popularity, enforcing honesty by default."
       role := some "End-to-end system design and implementation"
       recognition := some "Featured Selection — Vercel x Foru.ms Hackathon"
       links := some
         [("github", "https://github.com/shiv669/still"),
          ("live", "https://still-systems.vercel.app/")] },
     { name := "Code Review System"
       status := some "Learning-focused / Active"
       category := some "Backend system design exploration"
       tagline := some "A minimal code review workflow focused on preserving context over time."
       problem := some "Code review discussions often lose context as code evolves, leading to ambiguous or outdated feedback."
       approach := some
         ["Modeled immutable revisions",
          "Explicit state transitions for review lifecycle",
          "Revision-scoped feedback instead of global comments"]
       learningFocus := some "Understanding how real review systems model state, history, and feedback to avoid ambiguity."
       links := some [("github", "https://github.com/shiv669/code-review-system")] },
     { name := "Trace"
       status := some "Conceptual / Prototype"
       category := some "AI + spatial interaction"
       tagline := some "A cognitive continuity concept exploring interruption recovery."
       problem := some "Frequent interruptions break cognitive flow and make it difficult for users to resume tasks effectively."
       approach := some
         ["Explored spatial cues and behavioral signals",
          "Focused on guiding users back rather than instructing them",
          "Designed with privacy-first and local processing principles in mind"]
       context := some "Imagine Cup 2026 submission"
       links := some [("github", "https://github.com/trace-spatial")] },
     { name := "TRINERA"
       status := some "Hackathon / Prototype"
       category := some "AI-powered application"
       tagline := some "An agricultural pest detection assistant for farmers."
       problem := some "Farmers often lack immediate access to expert knowledge for identifying and managing crop pests."
       approach := some
         ["Computer vision for pest identification",
          "Conversational AI for guidance",
          "FastAPI backend with Next.js frontend"]
       techStack := some ["Next.js", "FastAPI", "Python"]
       links := some [("github", "https://github.com/shiv669/TRINERA")] },
     { name := "LocalAid Connect"
       status := some "Completed (Hackathon)"
       category := some "Community platform"
       tagline := some "A real-time emergency response platform for local communities."
       problem := some "During crises, people in need often struggle to connect quickly with nearby helpers."
       approach := some
         ["Real-time coordination using Appwrite",
          "Simple role-based flows for helpers and requesters",
          "Focused on reliability over visual complexity"]
       context := some "Appwrite Hacktoberfest 2025"
       links := some
         [("github", "https://github.com/shiv669/LocalAid"),
          ("live", "https://localaid.appwrite.network/")] },
     { name := "Memory Manager (C++)"
       status := some "Ongoing"
       category := some "Systems programming"
       tagline := some "A learning project to understand memory management internals."
       learningFocus := some "Exploring how low-level memory allocation works in C++ and how design decisions affect correctness and safety." },
     { name := "Ravel Core"
       status := some "Exploratory"
       category := some "System design learning"
       learningFocus := some "Understanding core system design concepts through small, focused experiments." },
     { name := "Ravel Insights"
       status := some "Exploratory"
       category := some "Applied ML learning"
       learningFocus := some "Exploring how monitoring and insights can be built on top of system data." }]
  skills :=
    { languages := ["JavaScript", "C", "C++", "SQL"]
      backend := ["Node.js", "Express", "REST APIs"]
      databases := ["SQLite", "MySQL", "Relational data modeling"]
      frontend := ["React", "Vite", "Basic UI integration"]
      tools := ["Git", "GitHub", "Docker", "Linux basics"]
      focus := "Backend system design, correctness, explicit state modeling, and learning how data models affect system behavior over time." }
  creativeWork := some
    { domain := "Video editing and visual storytelling"
      experience := "Freelance video editor working with creators in India and internationally, primarily on educational long-form and short-form content."
      tools := ["After Effects", "Premiere Pro", "CapCut"]
      perspective := "My interest in video editing influences how I think about pacing, clarity, and structure in software and user experience." }
  openSourceAndCommunity := some
    { programs := ["Hacktoberfest"]
      contributions :=
        ["Top 10 contributor at Goose",
         "Contributions to Goose and Travel-Grid repositories"]
      learning := "Learned collaborative development through issues, pull requests, and reviews." }
  learningStyle :=
    ["Build end-to-end systems",
     "Validate assumptions through implementation",
     "Document mistakes instead of hiding them",
     "Refine mental models through iteration"]

/-! ### `src/lib/rag/chunks.ts` -/

/-- The `interface ChunkSource`: provenance of a chunk (`section` is one of
the `ChunkSection` string constants). -/
structure ChunkSource where
  sec : String
  projectName : Option String := none
  deriving DecidableEq

/-- The `interface Chunk`. -/
structure Chunk where
  id : String
  text : String
  source : ChunkSource
  deriving DecidableEq

/-- JS string interpolation of a possibly-undefined value:
`` `${undefined}` `` is the string `"undefined"`. -/
def jsStr : Option String → String
  | some s => s
  | none => "undefined"

/-- JS `Array.prototype.join(sep)`. -/
def jsJoin (sep : String) (l : List String) : String :=
  String.intercalate sep l

/-- JS `Object.entries(links).map(([k, v]) => ` `` `${k}: ${v}` `` `)`. -/
def entryStrings (l : List (String × String)) : List String :=
  l.map (fun kv => kv.1 ++ ": " ++ kv.2)

/-- An optional `projectText +=` append from the per-project loop of
`generateChunks`. -/
def optPart (o : Option String) (f : String → String) : String :=
  match o with
  | some v => f v
  | none => ""

/-- The chunk pushed for one project in `generateChunks`. -/
def projectChunk (p : Project) : Chunk where
  id := "project-" ++ replaceWsRuns (jsToLower p.name)
  text :=
    "Project: " ++ p.name ++ ". " ++ jsStr p.tagline
    ++ optPart p.status (fun s => " Status: " ++ s ++ ".")
    ++ optPart p.category (fun s => " Category: " ++ s ++ ".")
    ++ optPart p.problem (fun s => " Problem: " ++ s)
    ++ (match p.approach with
        | some l => " Approach: " ++ jsJoin ". " l ++ "."
        | none => "")
    ++ optPart p.recognition (fun s => " Recognition: " ++ s ++ ".")
    ++ optPart p.learningFocus (fun s => " Learning focus: " ++ s)
    ++ optPart p.context (fun s => " Context: " ++ s ++ ".")
    ++ (match p.links with
        | some l => " Links: " ++ jsJoin ", " (entryStrings l) ++ "."
        | none => "")
  source := ⟨"project", some p.name⟩

/-- Function `generateChunks` from `chunks.ts`: the pushes of the imperative
builder, in order. -/
def generateChunks (d : PortfolioData) : List Chunk :=
  [⟨"identity-about",
    d.identity.name ++ " is an " ++ d.identity.role ++ ". " ++ d.identity.summary,
    ⟨"identity", none⟩⟩,
   ⟨"identity-philosophy",
    "Philosophy and approach: " ++ d.identity.philosophy,
    ⟨"identity", none⟩⟩,
   ⟨"identity-learning",
    "Learning style: " ++ jsJoin ". " d.learningStyle ++ ".",
    ⟨"identity", none⟩⟩]
  ++ (match d.dsa with
      | some i => [⟨"dsa-status", "DSA and LeetCode: " ++ i.status, ⟨"dsa", none⟩⟩]
      | none => [])
  ++ d.projects.map projectChunk
  ++ [⟨"skills-languages",
      "Programming languages: " ++ jsJoin ", " d.skills.languages ++ ".",
      ⟨"skills", none⟩⟩,
     ⟨"skills-backend",
      "Backend technologies: " ++ jsJoin ", " d.skills.backend ++ ".",
      ⟨"skills", none⟩⟩,
     ⟨"skills-databases",
      "Database experience: " ++ jsJoin ", " d.skills.databases ++ ".",
      ⟨"skills", none⟩⟩,
     ⟨"skills-frontend",
      "Frontend technologies: " ++ jsJoin ", " d.skills.frontend ++ ".",
      ⟨"skills", none⟩⟩,
     ⟨"skills-tools",
      "Development tools: " ++ jsJoin ", " d.skills.tools ++ ".",
      ⟨"skills", none⟩⟩,
     ⟨"skills-focus", "Technical focus: " ++ d.skills.focus, ⟨"skills", none⟩⟩]
  ++ (match d.creativeWork with
      | some c =>
        [⟨"creative-work",
          "Creative work: " ++ c.domain ++ ". " ++ c.experience ++ " Tools: "
            ++ jsJoin ", " c.tools ++ ". " ++ c.perspective,
          ⟨"creative", none⟩⟩]
      | none => [])
  ++ (match d.openSourceAndCommunity with
      | some o =>
        [⟨"opensource-contributions",
          "Open source contributions: " ++ jsJoin ". " o.contributions
            ++ ". Programs: " ++ jsJoin ", " o.programs ++ ". " ++ o.learning,
          ⟨"community", none⟩⟩]
      | none => [])
  ++ [⟨"contact-links",
      "Contact and social links: " ++ jsJoin ", " (entryStrings d.links) ++ ".",
      ⟨"contact", none⟩⟩]

/-- The `const chunks = generateChunks()` corpus. -/
def chunks : List Chunk :=
  generateChunks portfolioData

/-! ### `src/lib/rag/search.ts`

Embedding vectors are `List ℝ`.  The two network calls (`embedQuery` and
the on-demand chunk embedding of `getChunkEmbedding`) are modelled as oracle
parameters `embQ : String → List ℝ` and `embC : Chunk → List ℝ`; `ragSearch`
is a pure function of the oracles and the query, covering exactly the
executions in which the embedding provider returns normally. -/

/-- The `const SIMILARITY_THRESHOLD = 0.25` of `search.ts`. -/
noncomputable def SIMILARITY_THRESHOLD : ℝ := 0.25

/-- The `const TOP_K = 3` of `search.ts`. -/
def TOP_K : Nat := 3

/-- Function `cosineSimilarity` from `search.ts`: zero on mismatched lengths,
zero when the product of magnitudes is zero, otherwise the dot product over
the product of magnitudes. -/
noncomputable def cosineSimilarity (a b : List ℝ) : ℝ :=
  if a.length ≠ b.length then 0
  else
    let dotProduct := ((a.zip b).map (fun p => p.1 * p.2)).sum
    let normA := (a.map (fun x => x * x)).sum
    let normB := (b.map (fun x => x * x)).sum
    let magnitude := Real.sqrt normA * Real.sqrt normB
    if magnitude = 0 then 0 else dotProduct / magnitude

/-- The `interface SearchResult` of `search.ts`. -/
structure SearchResult where
  chunk : Chunk
  score : ℝ

/-- The `interface RAGSearchResult` of `search.ts`. -/
structure RAGSearchResult where
  intent : QueryIntent
  results : List SearchResult
  fallbackUsed : Bool

/-- Function `getFallbackChunks` from `search.ts`. -/
def getFallbackChunks : List Chunk :=
  chunks.filter (fun c => c.id = "identity-about" || c.id = "identity-philosophy")

/-- Step 2 of `ragSearch`: `chunks.filter(c => relevantSections.includes(c.source.section))`. -/
def relevantChunksFor (query : String) : List Chunk :=
  chunks.filter (fun c => (getSectionsForIntent (classifyIntent query)).contains c.source.sec)

/-- Step 4 of `ragSearch`: the `for (const chunk of relevantChunks)` loop,
keeping `{chunk, score}` exactly when `score >= SIMILARITY_THRESHOLD`. -/
noncomputable def scoreChunks (qe : List ℝ) (embC : Chunk → List ℝ) :
    List Chunk → List SearchResult
  | [] => []
  | c :: cs =>
    if SIMILARITY_THRESHOLD ≤ cosineSimilarity qe (embC c) then
      ⟨c, cosineSimilarity qe (embC c)⟩ :: scoreChunks qe embC cs
    else scoreChunks qe embC cs

/-- The thresholded candidate list of one search, in corpus order. -/
noncomputable def scoredCandidates (embQ : String → List ℝ) (embC : Chunk → List ℝ)
    (query : String) : List SearchResult :=
  scoreChunks (embQ query) embC (relevantChunksFor query)

/-- Stable insertion for descending scores: `x` moves past `y` only when
`y.score` is strictly greater, matching the stable
`results.sort((a, b) => b.score - a.score)`. -/
noncomputable def insertResult (x : SearchResult) :
    List SearchResult → List SearchResult
  | [] => [x]
  | y :: ys => if x.score < y.score then y :: insertResult x ys else x :: y :: ys

/-- Stable sort of search results by descending score. -/
noncomputable def sortResults : List SearchResult → List SearchResult
  | [] => []
  | x :: xs => insertResult x (sortResults xs)

/-- Function `ragSearch` from `search.ts`, over the two embedding oracles. -/
noncomputable def ragSearch (embQ : String → List ℝ) (embC : Chunk → List ℝ)
    (query : String) : RAGSearchResult :=
  if ((sortResults (scoredCandidates embQ embC query)).take TOP_K).isEmpty then
    ⟨classifyIntent query, getFallbackChunks.map (fun c => ⟨c, 0⟩), true⟩
  else
    ⟨classifyIntent query,
     (sortResults (scoredCandidates embQ embC query)).take TOP_K, false⟩

/-! ### `src/lib/portfolio-data.ts` — response types, canned fallbacks -/

/-- The `type PanelType` union. -/
inductive PanelType where
  | summary | projects | skills | resume | learning_path | failure | contact | unknown
  deriving DecidableEq

/-- The `interface ResultContent`. -/
structure ResultContent where
  title : String
  description : String
  highlightedWords : Option (List String) := none
  bulletPoints : Option (List String) := none
  imageUrl : Option String := none
  imageAlt : Option String := none
  deeperContext : Option String := none
  deriving DecidableEq

/-- The `interface Citation`. -/
structure Citation where
  key : String
  title : String
  subtitle : String
  imageUrl : String
  link : Option String := none
  deriving DecidableEq

/-- The `interface PanelResponse`. -/
structure PanelResponse where
  title : String
  type : PanelType
  content : ResultContent
  suggestions : List String
  canContinue : Bool
  searchPlaceholder : Option String := none
  citations : Option (List Citation) := none
  deriving DecidableEq

/-- JS `platform.charAt(0).toUpperCase() + platform.slice(1)`. -/
def jsCapitalize (s : String) : String :=
  match s.toList with
  | [] => ""
  | c :: cs => String.mk (c.toUpper :: cs)

/-- The `career_summary` entry of `fallbackResponses`. -/
def careerSummaryResponse : PanelResponse where
  title := "Career Summary"
  type := .summary
  content :=
    { title := "Career Summary"
      description :=
        portfolioData.identity.name ++ " is an " ++ portfolioData.identity.role
          ++ " focused on backend system design and correctness-first engineering. "
          ++ portfolioData.identity.summary
      highlightedWords := some
        ["backend system design", "correctness", "learning through iteration"]
      bulletPoints := some
        ["Vercel x Foru.ms Hackathon Featured Winner with \x27Still\x27",
         "Top 10 contributor at Goose (Open Source)",
         "Focus: Build end-to-end systems and validate through code"] }
  suggestions := ["Top projects", "Skills overview", "Open source contributions"]
  canContinue := true

/-- The `top_projects` entry of `fallbackResponses`
(`bulletPoints` is `projects.slice(0, 5).map(...)`). -/
def topProjectsResponse : PanelResponse where
  title := "Top Projects"
  type := .projects
  content :=
    { title := "Top Projects"
      description :=
        portfolioData.identity.name ++ " has built several notable projects focusing on correctness and system design. Still, his hackathon-winning project, explores how answers should fade unless proven correct over time. He also built LocalAid Connect for emergency response and TRINERA for agricultural pest detection."
      highlightedWords := some ["Still", "LocalAid Connect", "TRINERA", "correctness"]
      bulletPoints := some
        ((portfolioData.projects.take 5).map (fun p => p.name ++ " - " ++ jsStr p.tagline)) }
  suggestions := ["Career summary", "Skills overview", "Contact information"]
  canContinue := true

/-- The `skills_overview` entry of `fallbackResponses`. -/
def skillsOverviewResponse : PanelResponse where
  title := "Skills Overview"
  type := .skills
  content :=
    { title := "Skills Overview"
      description := "Technical expertise spans across multiple domains: languages like JavaScript, C, C++, and SQL; backend technologies including Node.js, Express, and REST APIs; databases such as SQLite and MySQL; frontend with React and Vite; and tools like Git, Docker, and Linux."
      highlightedWords := some ["JavaScript", "Node.js", "React", "Docker", "SQL"]
      bulletPoints := some
        ["Languages: " ++ jsJoin ", " portfolioData.skills.languages,
         "Backend: " ++ jsJoin ", " portfolioData.skills.backend,
         "Databases: " ++ jsJoin ", " portfolioData.skills.databases,
         "Frontend: " ++ jsJoin ", " portfolioData.skills.frontend,
         "Tools: " ++ jsJoin ", " portfolioData.skills.tools] }
  suggestions := ["Top projects", "Open source", "Resume format"]
  canContinue := true

/-- The `contact_information` entry of `fallbackResponses`. -/
def contactInformationResponse : PanelResponse where
  title := "Contact Information"
  type := .contact
  content :=
    { title := "Contact Information"
      description :=
        "Connect with " ++ portfolioData.identity.name ++ " through various platforms. GitHub for code and projects, LinkedIn for professional networking, DEV.to for articles, and LeetCode for DSA practice."
      highlightedWords := some ["GitHub", "LinkedIn", "DEV.to", "LeetCode"]
      bulletPoints := some
        (portfolioData.links.map (fun kv => jsCapitalize kv.1 ++ ": " ++ kv.2)) }
  suggestions := ["Career summary", "Top projects", "Skills overview"]
  canContinue := false

/-- The `no_information` entry of `fallbackResponses`. -/
def noInformationResponse : PanelResponse where
  title := "No Information Available"
  type := .unknown
  content :=
    { title := "No Information Available"
      description := "I don\x27t have information about that in the portfolio. Try asking about projects, skills, career summary, open source contributions, or contact information."
      highlightedWords := some [] }
  suggestions := ["Career summary", "Top projects", "Skills overview"]
  canContinue := false

/-- The `const fallbackResponses` record, keys in insertion order. -/
def fallbackResponses : List (String × PanelResponse) :=
  [("career_summary", careerSummaryResponse),
   ("top_projects", topProjectsResponse),
   ("skills_overview", skillsOverviewResponse),
   ("contact_information", contactInformationResponse),
   ("no_information", noInformationResponse)]

/-- JS record indexing `fallbackResponses[key]`, `undefined` on absent keys. -/
def lookupFallback (key : String) : Option PanelResponse :=
  (fallbackResponses.find? (fun kv => kv.1 = key)).map (·.2)

/-- The `mappings` record of `mapQueryToFallback`, keys in insertion order. -/
def fallbackMappings : List (String × List String) :=
  [("career_summary",
    ["career", "summary", "about", "who", "introduction", "intro", "overview", "shivam"]),
   ("top_projects",
    ["project", "projects", "work", "portfolio", "built", "made", "still", "trace",
     "ravel", "trinera", "localaid"]),
   ("skills_overview",
    ["skill", "skills", "tech", "technology", "stack", "languages", "expertise", "know"]),
   ("contact_information",
    ["contact", "email", "reach", "connect", "social", "linkedin", "github",
     "instagram", "links"])]

/-- The `for (const [key, keywords] of Object.entries(mappings))` loop. -/
def mapQueryLoop (q : String) : List (String × List String) → Option String
  | [] => none
  | (key, keywords) :: rest =>
    if keywords.any (fun kw => jsIncludes q kw) then some key
    else mapQueryLoop q rest

/-- Function `mapQueryToFallback` from `portfolio-data.ts`. -/
def mapQueryToFallback (query : String) : Option String :=
  mapQueryLoop (normalizeLowerTrim query) fallbackMappings

/-! ### `src/lib/cache.ts`

The module-level `Map`s become association lists passed explicitly; only
lookup semantics of `Map.get`/`Map.set`/`Map.delete` are relied on.
`Date.now()` becomes the argument `now`. -/

/-- JS `Map.prototype.get`. -/
def lookupKey {β : Type} : List (String × β) → String → Option β
  | [], _ => none
  | (k, v) :: rest, key => if k = key then some v else lookupKey rest key

/-- JS `Map.prototype.set` (insertion order of surviving entries is
irrelevant to every lookup made by the code). -/
def setKey {β : Type} (m : List (String × β)) (key : String) (v : β) :
    List (String × β) :=
  (key, v) :: m.filter (fun p => p.1 != key)

/-- JS `Map.prototype.delete`. -/
def delKey {β : Type} (m : List (String × β)) (key : String) :
    List (String × β) :=
  m.filter (fun p => p.1 != key)

/-- The `const CACHE_TTL = 6 * 60 * 60 * 1000` of `cache.ts`. -/
def CACHE_TTL : Nat := 6 * 60 * 60 * 1000

/-- The `const RATE_LIMIT = 10` of `cache.ts`. -/
def RATE_LIMIT : Nat := 10

/-- The `const RATE_WINDOW = 60 * 1000` of `cache.ts`. -/
def RATE_WINDOW : Nat := 60 * 1000

/-- The `const DAILY_LIMIT = 12` of `cache.ts`. -/
def DAILY_LIMIT : Nat := 12

/-- Function `isDailyQuotaExceeded`, over the explicit counter value. -/
def isDailyQuotaExceeded (dailyCallCount : Nat) : Bool :=
  DAILY_LIMIT ≤ dailyCallCount

/-- Function `incrementDailyCallCount`, over the explicit counter value. -/
def incrementDailyCallCount (dailyCallCount : Nat) : Nat :=
  dailyCallCount + 1

/-- The `CacheEntry` type of `types.ts`. -/
structure CacheEntry where
  response : PanelResponse
  timestamp : Nat
  ttl : Nat
  deriving DecidableEq

/-- The `RateLimitEntry` type of `types.ts`. -/
structure RateLimitEntry where
  count : Nat
  resetTime : Nat
  deriving DecidableEq

/-- The record returned by `checkRateLimit`. -/
structure RateLimitResult where
  allowed : Bool
  remaining : Nat
  resetIn : Nat
  deriving DecidableEq

/-- Function `getCachedResponse` from `cache.ts`; returns the hit (if any)
together with the cache state after the lazy eviction of an expired entry. -/
def getCachedResponse (cache : List (String × CacheEntry)) (query : String)
    (now : Nat) : Option PanelResponse × List (String × CacheEntry) :=
  let normalizedQuery := normalizeLowerTrim query
  match lookupKey cache normalizedQuery with
  | none => (none, cache)
  | some entry =>
    if entry.ttl < now - entry.timestamp then (none, delKey cache normalizedQuery)
    else (some entry.response, cache)

/-- Function `setCachedResponse` from `cache.ts`. -/
def setCachedResponse (cache : List (String × CacheEntry)) (query : String)
    (response : PanelResponse) (now : Nat) : List (String × CacheEntry) :=
  setKey cache (normalizeLowerTrim query) ⟨response, now, CACHE_TTL⟩

/-- Function `checkRateLimit` from `cache.ts`; returns the result record and
the rate-limit map after the call. -/
def checkRateLimit (m : List (String × RateLimitEntry)) (ip : String)
    (now : Nat) : RateLimitResult × List (String × RateLimitEntry) :=
  match lookupKey m ip with
  | none =>
    (⟨true, RATE_LIMIT - 1, RATE_WINDOW⟩, setKey m ip ⟨1, now + RATE_WINDOW⟩)
  | some entry =>
    if entry.resetTime < now then
      (⟨true, RATE_LIMIT - 1, RATE_WINDOW⟩, setKey m ip ⟨1, now + RATE_WINDOW⟩)
    else if RATE_LIMIT ≤ entry.count then
      (⟨false, 0, entry.resetTime - now⟩, m)
    else
      (⟨true, RATE_LIMIT - (entry.count + 1), entry.resetTime - now⟩,
       setKey m ip ⟨entry.count + 1, entry.resetTime⟩)

/-! ### `src/app/api/query/route.ts`

The handler's inputs: the shared mutable state, the client ip, the time, the
parsed body (`Except` for a `req.json()` failure) and the generation oracle
(`Except` for a `generateObject` throw).  `genCalled` records whether the
handler reached the `generateObject` call. -/

/-- A parsed JSON value in the `query` field: a string, or any other value
with its JS truthiness. -/
inductive JsVal where
  | str (s : String)
  | other (truthy : Bool)
  deriving DecidableEq

/-- The parsed request body. -/
structure ReqBody where
  query : Option JsVal := none
  context : Option String := none
  deriving DecidableEq

/-- The validation `if (!query || typeof query !== "string")`: `some s`
exactly for a truthy string. -/
def queryString? : Option JsVal → Option String
  | some (.str s) => if s = "" then none else some s
  | _ => none

/-- The process-wide mutable state touched by a request: response cache,
rate-limit map and daily call counter. -/
structure ServerState where
  cache : List (String × CacheEntry)
  rate : List (String × RateLimitEntry)
  daily : Nat
  deriving DecidableEq

/-- The observable outcome of one `POST` call: the JSON body fields produced
by the route, the HTTP status, the state after the call, and whether the
generation call was reached. -/
structure PostResult where
  status : Nat
  success : Bool
  data : Option PanelResponse := none
  cached : Option Bool := none
  fallback : Option Bool := none
  error : Option String := none
  state : ServerState
  genCalled : Bool
  deriving DecidableEq

/-- The `POST` handler of `route.ts`. -/
def POST (st : ServerState) (ip : String) (now : Nat)
    (body : Except Unit ReqBody) (gen : Except Unit PanelResponse) : PostResult :=
  let rl := checkRateLimit st.rate ip now
  let st1 : ServerState := { st with rate := rl.2 }
  if rl.1.allowed = false then
    { status := 429, success := false,
      error := some ("Rate limit exceeded. Please wait "
        ++ toString ((rl.1.resetIn + 999) / 1000) ++ " seconds."),
      state := st1, genCalled := false }
  else
    match body with
    | .error _ =>
      { status := 500, success := false, error := some "An error occurred",
        state := st1, genCalled := false }
    | .ok req =>
      match queryString? req.query with
      | none =>
        { status := 400, success := false, error := some "Query is required",
          state := st1, genCalled := false }
      | some q =>
        let normalizedQuery := normalizeTrimLower q
        let cacheKey :=
          match req.context with
          | some ctx =>
            if ctx = "" then normalizedQuery else normalizedQuery ++ "__" ++ ctx
          | none => normalizedQuery
        let cr := getCachedResponse st1.cache cacheKey now
        let st2 : ServerState := { st1 with cache := cr.2 }
        match cr.1 with
        | some resp =>
          { status := 200, success := true, data := some resp,
            cached := some true, state := st2, genCalled := false }
        | none =>
          match gen with
          | .ok obj =>
            { status := 200, success := true, data := some obj,
              cached := some false,
              state := { st2 with cache := setCachedResponse st2.cache cacheKey obj now },
              genCalled := true }
          | .error _ =>
            match mapQueryToFallback q with
            | some fallbackKey =>
              match lookupFallback fallbackKey with
              | some fr =>
                { status := 200, success := true, data := some fr,
                  cached := some false, fallback := some true,
                  state := { st2 with cache := setCachedResponse st2.cache cacheKey fr now },
                  genCalled := true }
              | none =>
                { status := 200, success := true, data := some noInformationResponse,
                  cached := some false, fallback := some true, state := st2,
                  genCalled := true }
            | none =>
              { status := 200, success := true, data := some noInformationResponse,
                cached := some false, fallback := some true, state := st2,
                genCalled := true }

/-! ### C7 — intent classification -/

/-- Refinement reference for C7, following the spec's words: the pattern
table already written in descending priority order (priorities 10, 10, 5, 5,
5, 5, 3; ties in source order). -/
def specDescendingPatterns : List IntentPattern :=
  [contactPattern, dsaPattern, projectPattern, skillsPattern, creativePattern,
   communityPattern, identityPattern]

/-- Refinement reference for C7, following the spec's words: normalize the
query, scan patterns in descending priority order, return the first pattern
with a keyword occurring as a substring, else the default general intent. -/
def specClassifyIntent (query : String) : QueryIntent :=
  match specDescendingPatterns.find? (patternMatches (normalizeLowerTrim query)) with
  | some p => p.intent
  | none => .general

/-- The runtime stable sort of the pattern table is exactly the
descending-priority listing. -/
lemma sortPatterns_eq : sortPatterns intentPatterns = specDescendingPatterns := by
  rfl

/-- The classification loop returns the first matching pattern's intent. -/
lemma classifyLoop_eq_find (q : String) (l : List IntentPattern) :
    classifyLoop q l =
      match l.find? (patternMatches q) with
      | some p => p.intent
      | none => .general := by
  induction l with
  | nil => rfl
  | cons p ps ih =>
    cases hp : patternMatches q p <;> simp [classifyLoop, List.find?, hp, ih]

/-- C7: `classifyIntent` normalizes the query (lowercase, trim), scans the
patterns in descending priority order and returns the first pattern's intent
any of whose keywords is a substring of the normalized query; when no
keyword pattern matches it returns the default general intent.  Exactly one
intent is returned and the function is pure by construction. -/
theorem classifyIntent_spec (q : String) :
    classifyIntent q = specClassifyIntent q ∧
    ((∀ p ∈ intentPatterns, patternMatches (normalizeLowerTrim q) p = false) →
      classifyIntent q = .general) := by
  have hmain : classifyIntent q = specClassifyIntent q := by
    unfold classifyIntent specClassifyIntent
    rw [sortPatterns_eq, classifyLoop_eq_find]
  refine ⟨hmain, fun hnone => ?_⟩
  rw [hmain]
  unfold specClassifyIntent
  have : specDescendingPatterns.find? (patternMatches (normalizeLowerTrim q)) = none := by
    rw [List.find?_eq_none]
    intro p hp
    have hmem : p ∈ intentPatterns := by
      simp only [specDescendingPatterns] at hp
      simp only [intentPatterns]
      exact hp
    simp [hnone p hmem]
  rw [this]

/-- Witness for C7 at the concrete query `"zzz qqq"`, which matches no
keyword and classifies as general. -/
theorem classifyIntent_spec_witness :
    classifyIntent "zzz qqq" = QueryIntent.general :=
  (classifyIntent_spec "zzz qqq").2 (by decide)

/-! ### C5 — cache TTL -/

/-- A key just set is found. -/
lemma lookupKey_setKey {β : Type} (m : List (String × β)) (k : String) (v : β) :
    lookupKey (setKey m k v) k = some v := by
  simp [setKey, lookupKey]

/-- C5 (amended): a response stored at time `T` is returned unchanged by a
lookup at `Tq` exactly while `Tq - T ≤ CACHE_TTL`; the entry is a miss only
strictly after the TTL has elapsed (the code expires with
`now - timestamp > ttl`, so an entry exactly `CACHE_TTL` old is still
served). -/
theorem cache_ttl_spec (st : List (String × CacheEntry)) (q : String)
    (resp : PanelResponse) (T Tq : Nat) :
    (getCachedResponse (setCachedResponse st q resp T) q Tq).1 =
      if Tq - T ≤ CACHE_TTL then some resp else none := by
  simp only [getCachedResponse, setCachedResponse, lookupKey_setKey]
  by_cases h : Tq - T ≤ CACHE_TTL
  · simp [Nat.not_lt.2 h, h]
  · simp [Nat.lt_of_not_le h, h]

/-- Counterexample to C5 as stated: a response cached at time `0` and looked
up at time exactly `CACHE_TTL` (so `Tq - T = TTL ≥ TTL`) is still returned,
not absent. -/
theorem cache_ttl_counterexample :
    (getCachedResponse (setCachedResponse [] "q" noInformationResponse 0) "q"
        CACHE_TTL).1 = some noInformationResponse := by
  rfl

/-! ### C6 — rate limiter -/

/-- C6 (amended): the fixed-window algorithm of `checkRateLimit`.  A fresh
window (count 1, reset at `now + RATE_WINDOW`, allowed) starts when no
window exists or the current time is strictly past the window's reset
timestamp; within a window a request below the limit increments and is
allowed, and a request at or above the limit is denied without incrementing,
reporting the time until reset; an allowed request never leaves a count
above the limit. -/
theorem rateLimit_spec (m : List (String × RateLimitEntry)) (ip : String) (now : Nat) :
    (lookupKey m ip = none →
      checkRateLimit m ip now =
        (⟨true, RATE_LIMIT - 1, RATE_WINDOW⟩, setKey m ip ⟨1, now + RATE_WINDOW⟩)) ∧
    (∀ e, lookupKey m ip = some e → e.resetTime < now →
      checkRateLimit m ip now =
        (⟨true, RATE_LIMIT - 1, RATE_WINDOW⟩, setKey m ip ⟨1, now + RATE_WINDOW⟩)) ∧
    (∀ e, lookupKey m ip = some e → now ≤ e.resetTime → RATE_LIMIT ≤ e.count →
      checkRateLimit m ip now = (⟨false, 0, e.resetTime - now⟩, m)) ∧
    (∀ e, lookupKey m ip = some e → now ≤ e.resetTime → e.count < RATE_LIMIT →
      checkRateLimit m ip now =
        (⟨true, RATE_LIMIT - (e.count + 1), e.resetTime - now⟩,
         setKey m ip ⟨e.count + 1, e.resetTime⟩)) ∧
    ((checkRateLimit m ip now).1.allowed = true →
      ∀ e, lookupKey (checkRateLimit m ip now).2 ip = some e → e.count ≤ RATE_LIMIT) := by
  refine ⟨?_, ?_, ?_, ?_, ?_⟩
  · intro h
    simp [checkRateLimit, h]
  · intro e he h
    simp [checkRateLimit, he, h]
  · intro e he h hc
    simp [checkRateLimit, he, Nat.not_lt.2 h, hc]
  · intro e he h hc
    simp [checkRateLimit, he, Nat.not_lt.2 h, Nat.not_le.2 hc]
  · intro hallow e he
    rcases hm : lookupKey m ip with _ | f
    · simp only [checkRateLimit, hm, lookupKey_setKey] at he
      cases he
      show (1 : Nat) ≤ RATE_LIMIT
      decide
    · simp only [checkRateLimit, hm] at he
      by_cases hr : f.resetTime < now
      · simp only [if_pos hr, lookupKey_setKey] at he
        cases he
        show (1 : Nat) ≤ RATE_LIMIT
        decide
      · simp only [if_neg hr] at he
        by_cases hc : RATE_LIMIT ≤ f.count
        · simp only [checkRateLimit, hm, if_neg hr, if_pos hc] at hallow
          cases hallow
        · simp only [if_neg hc, lookupKey_setKey] at he
          cases he
          exact Nat.not_le.1 hc

/-- Witness for C6 exercising each case of `rateLimit_spec` at concrete
states, and the count bound for the fresh window it creates. -/
theorem rateLimit_spec_witness :
    checkRateLimit [] "ip" 5 = (⟨true, 9, 60000⟩, [("ip", ⟨1, 60005⟩)]) ∧
    checkRateLimit [("ip", ⟨10, 40⟩)] "ip" 50 = (⟨true, 9, 60000⟩, [("ip", ⟨1, 60050⟩)]) ∧
    checkRateLimit [("ip", ⟨10, 100⟩)] "ip" 50 = (⟨false, 0, 50⟩, [("ip", ⟨10, 100⟩)]) ∧
    checkRateLimit [("ip", ⟨3, 100⟩)] "ip" 50 = (⟨true, 6, 50⟩, [("ip", ⟨4, 100⟩)]) ∧
    (1 : Nat) ≤ RATE_LIMIT := by
  refine ⟨(rateLimit_spec [] "ip" 5).1 rfl,
    (rateLimit_spec [("ip", ⟨10, 40⟩)] "ip" 50).2.1 ⟨10, 40⟩ rfl (by decide),
    (rateLimit_spec [("ip", ⟨10, 100⟩)] "ip" 50).2.2.1 ⟨10, 100⟩ rfl (by decide) (by decide),
    (rateLimit_spec [("ip", ⟨3, 100⟩)] "ip" 50).2.2.2.1 ⟨3, 100⟩ rfl (by decide) (by decide),
    (rateLimit_spec [] "ip" 5).2.2.2.2 rfl (⟨1, 60005⟩ : RateLimitEntry) rfl⟩

/-- Counterexample to C6 as stated: at `now` exactly equal to the window's
`resetTime`, with the window at the limit, no fresh window starts — the
request is denied and the entry is unchanged (the code resets only when
`now > resetTime`). -/
theorem rateLimit_boundary_counterexample :
    (checkRateLimit [("ip", ⟨10, 1000⟩)] "ip" 1000).1.allowed = false ∧
    (checkRateLimit [("ip", ⟨10, 1000⟩)] "ip" 1000).2 = [("ip", ⟨10, 1000⟩)] :=
  ⟨rfl, rfl⟩

/-! ### C9 — request validation -/

/-- C9 (amended): when the rate-limit check allows the request, a request
whose `query` field is missing, not a string, or the empty string gets HTTP
400 with `success = false`, no generation call, and no mutation of the cache
or of the daily counter; the rate-limit state, however, has already been
updated by `checkRateLimit`, which runs before validation.  (A
whitespace-only query is truthy and is not rejected.) -/
theorem POST_invalid_query (st : ServerState) (ip : String) (now : Nat)
    (req : ReqBody) (gen : Except Unit PanelResponse)
    (hrate : (checkRateLimit st.rate ip now).1.allowed = true)
    (hq : queryString? req.query = none) :
    POST st ip now (.ok req) gen =
      { status := 400, success := false, error := some "Query is required",
        state := { st with rate := (checkRateLimit st.rate ip now).2 },
        genCalled := false } := by
  simp [POST, hrate, hq]

/-- Witness for C9 (amended) at an empty server state and a missing query. -/
theorem POST_invalid_query_witness :
    POST ⟨[], [], 0⟩ "ip" 0 (.ok ⟨none, none⟩) (.ok noInformationResponse) =
      { status := 400, success := false, error := some "Query is required",
        state := ⟨[], [("ip", ⟨1, 60000⟩)], 0⟩, genCalled := false } :=
  POST_invalid_query ⟨[], [], 0⟩ "ip" 0 ⟨none, none⟩ (.ok noInformationResponse)
    rfl rfl

/-- Counterexample to C9 as stated: the 400 response for a missing query is
produced only after the rate-limit map has been mutated (an entry for the
client is created), and a whitespace-only query — empty after trimming — is
not rejected at all (the handler proceeds and answers 200). -/
theorem POST_validation_counterexample :
    (POST ⟨[], [], 0⟩ "1.2.3.4" 0 (.ok ⟨none, none⟩) (.ok noInformationResponse)).status = 400 ∧
    (POST ⟨[], [], 0⟩ "1.2.3.4" 0 (.ok ⟨none, none⟩) (.ok noInformationResponse)).state.rate =
      [("1.2.3.4", ⟨1, 60000⟩)] ∧
    (POST ⟨[], [], 0⟩ "1.2.3.4" 0 (.ok ⟨some (.str " "), none⟩) (.ok noInformationResponse)).status = 200 :=
  ⟨rfl, rfl, rfl⟩

/-! ### C8 — generation failure degrades, never propagates -/

/-- C8: whenever the handler reaches the generation call and that call
throws, the response is `success = true`, HTTP 200, flagged as fallback,
with no error field, and its payload is either a keyword-mapped canned
fallback response or the generic no-information response. -/
theorem POST_generation_degrades (st : ServerState) (ip : String) (now : Nat)
    (body : Except Unit ReqBody) (gen : Except Unit PanelResponse)
    (hgen : gen = Except.error ())
    (hcalled : (POST st ip now body gen).genCalled = true) :
    (POST st ip now body gen).success = true ∧
    (POST st ip now body gen).status = 200 ∧
    (POST st ip now body gen).fallback = some true ∧
    (POST st ip now body gen).error = none ∧
    ∃ req q, body = .ok req ∧ queryString? req.query = some q ∧
      ((∃ k fr, mapQueryToFallback q = some k ∧ lookupFallback k = some fr ∧
          (POST st ip now body gen).data = some fr) ∨
        (POST st ip now body gen).data = some noInformationResponse) := by
  subst hgen
  by_cases hr : (checkRateLimit st.rate ip now).1.allowed = false
  · simp [POST, hr] at hcalled
  · cases body with
    | error e => simp [POST, hr] at hcalled
    | ok req =>
      cases hq : queryString? req.query with
      | none => simp [POST, hr, hq] at hcalled
      | some q =>
        cases hcache :
            (getCachedResponse st.cache
              (match req.context with
               | some ctx =>
                 if ctx = "" then normalizeTrimLower q
                 else normalizeTrimLower q ++ "__" ++ ctx
               | none => normalizeTrimLower q) now).1 with
        | some r => simp [POST, hr, hq, hcache] at hcalled
        | none =>
          cases hmap : mapQueryToFallback q with
          | none =>
            refine ⟨?_, ?_, ?_, ?_, req, q, rfl, hq, Or.inr ?_⟩ <;>
              simp [POST, hr, hq, hcache, hmap]
          | some k =>
            cases hlk : lookupFallback k with
            | none =>
              refine ⟨?_, ?_, ?_, ?_, req, q, rfl, hq, Or.inr ?_⟩ <;>
                simp [POST, hr, hq, hcache, hmap, hlk]
            | some fr =>
              refine ⟨?_, ?_, ?_, ?_, req, q, rfl, hq,
                Or.inl ⟨k, fr, hmap, hlk, ?_⟩⟩ <;>
                simp [POST, hr, hq, hcache, hmap, hlk]

/-- Witness for C8: empty state, query `"projects"`, generation throws; the
handler still answers success 200. -/
theorem POST_generation_degrades_witness :
    (POST ⟨[], [], 0⟩ "ip" 0 (.ok ⟨some (.str "projects"), none⟩) (.error ())).success = true ∧
    (POST ⟨[], [], 0⟩ "ip" 0 (.ok ⟨some (.str "projects"), none⟩) (.error ())).status = 200 :=
  ⟨(POST_generation_degrades ⟨[], [], 0⟩ "ip" 0 (.ok ⟨some (.str "projects"), none⟩)
      (.error ()) rfl rfl).1,
   (POST_generation_degrades ⟨[], [], 0⟩ "ip" 0 (.ok ⟨some (.str "projects"), none⟩)
      (.error ()) rfl rfl).2.1⟩

/-! ### C4 — daily quota is never consulted by the handler -/

/-- C4 (code evaluated at the failing input): the handler never reads or
writes the daily counter — `POST` leaves `daily` unchanged for every input —
and at a state whose counter is at the ceiling (`isDailyQuotaExceeded`
holds) a valid request still reaches the generation call and returns the
generated object, with no quota flag and no increment; generation is not
skipped. -/
theorem POST_ignores_daily_quota :
    (∀ (st : ServerState) (ip : String) (now : Nat) (body : Except Unit ReqBody)
        (gen : Except Unit PanelResponse),
      (POST st ip now body gen).state.daily = st.daily) ∧
    isDailyQuotaExceeded 12 = true ∧
    (POST ⟨[], [], 12⟩ "ip" 0 (.ok ⟨some (.str "projects"), none⟩)
        (.ok careerSummaryResponse)).genCalled = true ∧
    (POST ⟨[], [], 12⟩ "ip" 0 (.ok ⟨some (.str "projects"), none⟩)
        (.ok careerSummaryResponse)).data = some careerSummaryResponse ∧
    (POST ⟨[], [], 12⟩ "ip" 0 (.ok ⟨some (.str "projects"), none⟩)
        (.ok careerSummaryResponse)).state.daily = 12 := by
  refine ⟨?_, rfl, rfl, rfl, rfl⟩
  intro st ip now body gen
  simp only [POST]
  repeat' split
  all_goals rfl

/-! ### C3 — cosine similarity bounds -/

/-- A sum of squares is nonnegative. -/
lemma sum_sq_nonneg (l : List ℝ) : 0 ≤ (l.map (fun x => x * x)).sum := by
  induction l with
  | nil => simp
  | cons x xs ih =>
    simp only [List.map_cons, List.sum_cons]
    nlinarith [mul_self_nonneg x]

/-- Cauchy–Schwarz for the truncating pointwise product of two lists. -/
lemma zip_dot_sq_le (a b : List ℝ) :
    (((a.zip b).map (fun p => p.1 * p.2)).sum) ^ 2 ≤
      ((a.map (fun x => x * x)).sum) * ((b.map (fun x => x * x)).sum) := by
  induction a generalizing b with
  | nil => simp
  | cons x xs ih =>
    cases b with
    | nil => simp
    | cons y ys =>
      have hIH := ih ys
      have hA : 0 ≤ (xs.map (fun x => x * x)).sum := sum_sq_nonneg xs
      have hB : 0 ≤ (ys.map (fun x => x * x)).sum := sum_sq_nonneg ys
      simp only [List.zip_cons_cons, List.map_cons, List.sum_cons]
      set D := ((xs.zip ys).map (fun p => p.1 * p.2)).sum with hD
      set A := (xs.map (fun x => x * x)).sum with hA2
      set B := (ys.map (fun x => x * x)).sum with hB2
      rcases eq_or_lt_of_le hA with hA0 | hApos
      · have hDsq : D ^ 2 ≤ 0 := by
          rw [← hA0] at hIH
          simpa using hIH
        have hD0 : D = 0 := by nlinarith [sq_nonneg D]
        rw [hD0, ← hA0]
        nlinarith [mul_nonneg (mul_self_nonneg x) hB]
      · have key : A * ((x * x + A) * (y * y + B) - (x * y + D) ^ 2) =
            (x * D - y * A) ^ 2 + (x * x + A) * (A * B - D ^ 2) := by ring
        have h1 : 0 ≤ (x * D - y * A) ^ 2 := sq_nonneg _
        have h2 : 0 ≤ (x * x + A) * (A * B - D ^ 2) :=
          mul_nonneg (by nlinarith [mul_self_nonneg x]) (by linarith)
        nlinarith [key, h1, h2, hApos]

/-- C3: `cosineSimilarity` always lies in `[-1, 1]`; it is exactly `0` when
the two vectors have different lengths, and exactly `0` when either vector
has zero magnitude (the function is total — it never throws or divides by
zero). -/
theorem cosineSimilarity_bounds (a b : List ℝ) :
    (-1 ≤ cosineSimilarity a b ∧ cosineSimilarity a b ≤ 1) ∧
    (a.length ≠ b.length → cosineSimilarity a b = 0) ∧
    ((Real.sqrt ((a.map (fun x => x * x)).sum) = 0 ∨
        Real.sqrt ((b.map (fun x => x * x)).sum) = 0) →
      cosineSimilarity a b = 0) := by
  by_cases hlen : a.length ≠ b.length
  · refine ⟨?_, fun _ => ?_, fun _ => ?_⟩ <;> simp [cosineSimilarity, hlen]
  · have hmagcases :
        Real.sqrt ((a.map (fun x => x * x)).sum) *
            Real.sqrt ((b.map (fun x => x * x)).sum) = 0 ∨
          Real.sqrt ((a.map (fun x => x * x)).sum) *
              Real.sqrt ((b.map (fun x => x * x)).sum) ≠ 0 := em _
    rcases hmagcases with hmag | hmag
    · refine ⟨?_, fun h => absurd h hlen, fun _ => ?_⟩ <;>
        simp [cosineSimilarity, hlen, hmag]
    · have hbounds : -1 ≤ cosineSimilarity a b ∧ cosineSimilarity a b ≤ 1 := by
        have hnA : 0 ≤ (a.map (fun x => x * x)).sum := sum_sq_nonneg a
        have hnB : 0 ≤ (b.map (fun x => x * x)).sum := sum_sq_nonneg b
        have hmagnn :
            0 ≤ Real.sqrt ((a.map (fun x => x * x)).sum) *
              Real.sqrt ((b.map (fun x => x * x)).sum) :=
          mul_nonneg (Real.sqrt_nonneg _) (Real.sqrt_nonneg _)
        have hmagpos :
            0 < Real.sqrt ((a.map (fun x => x * x)).sum) *
              Real.sqrt ((b.map (fun x => x * x)).sum) :=
          lt_of_le_of_ne hmagnn (Ne.symm hmag)
        have hsqrtmul :
            Real.sqrt ((a.map (fun x => x * x)).sum) *
                Real.sqrt ((b.map (fun x => x * x)).sum) =
              Real.sqrt (((a.map (fun x => x * x)).sum) *
                ((b.map (fun x => x * x)).sum)) :=
          (Real.sqrt_mul hnA _).symm
        have habs :
            |((a.zip b).map (fun p => p.1 * p.2)).sum| ≤
              Real.sqrt ((a.map (fun x => x * x)).sum) *
                Real.sqrt ((b.map (fun x => x * x)).sum) := by
          rw [hsqrtmul, ← Real.sqrt_sq_eq_abs]
          exact Real.sqrt_le_sqrt (zip_dot_sq_le a b)
        have hval : cosineSimilarity a b =
            ((a.zip b).map (fun p => p.1 * p.2)).sum /
              (Real.sqrt ((a.map (fun x => x * x)).sum) *
                Real.sqrt ((b.map (fun x => x * x)).sum)) := by
          simp [cosineSimilarity, hlen, hmag]
        have hdiv :
            |cosineSimilarity a b| ≤ 1 := by
          rw [hval, abs_div, abs_of_nonneg hmagnn]
          exact (div_le_one hmagpos).2 habs
        exact abs_le.1 hdiv
      refine ⟨hbounds, fun h => absurd h hlen, fun h => ?_⟩
      rcases h with h | h <;>
        [exact absurd (by rw [h, zero_mul]) hmag;
         exact absurd (by rw [h, mul_zero]) hmag]

/-- Witness for C3 at concrete vectors: mismatched lengths give `0`, a
zero-magnitude vector gives `0`, and the bound holds at `[1] · [1]`. -/
theorem cosineSimilarity_bounds_witness :
    cosineSimilarity [1, 0] [1] = 0 ∧ cosineSimilarity [0] [1] = 0 ∧
      -1 ≤ cosineSimilarity [1] [1] :=
  ⟨(cosineSimilarity_bounds [1, 0] [1]).2.1 (by simp),
   (cosineSimilarity_bounds [0] [1]).2.2 (Or.inl (by simp)),
   (cosineSimilarity_bounds [1] [1]).1.1⟩

/-! ### Sorting lemmas for the search pipeline -/

/-- Membership through stable insertion. -/
lemma mem_insertResult {r x : SearchResult} {l : List SearchResult} :
    r ∈ insertResult x l ↔ r = x ∨ r ∈ l := by
  induction l with
  | nil => simp [insertResult]
  | cons y ys ih =>
    by_cases h : x.score < y.score <;> simp [insertResult, h, ih]
    tauto

/-- Membership through the stable sort. -/
lemma mem_sortResults {r : SearchResult} {l : List SearchResult} :
    r ∈ sortResults l ↔ r ∈ l := by
  induction l with
  | nil => simp [sortResults]
  | cons x xs ih => simp [sortResults, mem_insertResult, ih]

/-- Every surviving candidate scores at least the threshold. -/
lemma scoreChunks_score_ge (qe : List ℝ) (embC : Chunk → List ℝ)
    (cs : List Chunk) :
    ∀ r ∈ scoreChunks qe embC cs, SIMILARITY_THRESHOLD ≤ r.score := by
  induction cs with
  | nil => simp [scoreChunks]
  | cons c cs ih =>
    intro r hr
    rw [scoreChunks] at hr
    split at hr
    · rcases List.mem_cons.1 hr with rfl | hm
      · assumption
      · exact ih r hm
    · exact ih r hr

/-- Stable insertion preserves descending sortedness. -/
lemma insertResult_sorted {x : SearchResult} {l : List SearchResult}
    (h : l.Pairwise (fun a b => b.score ≤ a.score)) :
    (insertResult x l).Pairwise (fun a b => b.score ≤ a.score) := by
  induction l with
  | nil => simp [insertResult]
  | cons y ys ih =>
    rcases List.pairwise_cons.1 h with ⟨hy, hys⟩
    by_cases hxy : x.score < y.score
    · rw [insertResult, if_pos hxy]
      refine List.pairwise_cons.2 ⟨?_, ih hys⟩
      intro z hz
      rcases mem_insertResult.1 hz with rfl | hzm
      · exact le_of_lt hxy
      · exact hy z hzm
    · rw [insertResult, if_neg hxy]
      refine List.pairwise_cons.2 ⟨?_, h⟩
      intro z hz
      rcases List.mem_cons.1 hz with rfl | hzm
      · exact not_lt.1 hxy
      · exact le_trans (hy z hzm) (not_lt.1 hxy)

/-- The stable sort yields a descending list. -/
lemma sortResults_sorted (l : List SearchResult) :
    (sortResults l).Pairwise (fun a b => b.score ≤ a.score) := by
  induction l with
  | nil => simp [sortResults]
  | cons x xs ih =>
    rw [sortResults]
    exact insertResult_sorted ih

/-- Stability of insertion: restricted to any one score, insertion puts the
new element first (it only moves past strictly greater scores). -/
lemma insertResult_filter (x : SearchResult) (l : List SearchResult) (s : ℝ) :
    (insertResult x l).filter (fun r => decide (r.score = s)) =
      if x.score = s then x :: l.filter (fun r => decide (r.score = s))
      else l.filter (fun r => decide (r.score = s)) := by
  induction l with
  | nil => by_cases hx : x.score = s <;> simp [insertResult, hx]
  | cons y ys ih =>
    by_cases hxy : x.score < y.score
    · rw [insertResult, if_pos hxy]
      by_cases hx : x.score = s
      · have hy : ¬(y.score = s) := by
          rw [← hx]
          exact ne_of_gt hxy
        simp [List.filter_cons, hy, ih, hx]
      · simp [List.filter_cons, ih, hx]
    · rw [insertResult, if_neg hxy]
      by_cases hx : x.score = s <;> simp [List.filter_cons, hx]

/-- Stability of the sort: restricted to any one score, the sorted list
keeps the original order. -/
lemma sortResults_filter (l : List SearchResult) (s : ℝ) :
    (sortResults l).filter (fun r => decide (r.score = s)) =
      l.filter (fun r => decide (r.score = s)) := by
  induction l with
  | nil => simp [sortResults]
  | cons x xs ih =>
    rw [sortResults, insertResult_filter]
    by_cases hx : x.score = s <;> simp [List.filter_cons, hx, ih]

/-- Filtering both sides keeps the initial-segment relation. -/
lemma filterPre {α : Type} (P : α → Bool) {l₁ l₂ : List α} (h : l₁ <+: l₂) :
    l₁.filter P <+: l₂.filter P := by
  obtain ⟨t, rfl⟩ := h
  exact ⟨t.filter P, by simp⟩

/-- Insertion adds one element. -/
lemma length_insertResult (x : SearchResult) (l : List SearchResult) :
    (insertResult x l).length = l.length + 1 := by
  induction l with
  | nil => rfl
  | cons y ys ih =>
    by_cases h : x.score < y.score <;> simp [insertResult, h, ih]

/-- The stable sort preserves length. -/
lemma length_sortResults (l : List SearchResult) :
    (sortResults l).length = l.length := by
  induction l with
  | nil => rfl
  | cons x xs ih =>
    rw [sortResults, length_insertResult, ih, List.length_cons]

/-- When no fallback was used, the results are the truncated sorted
candidates. -/
lemma ragSearch_results_of_not_fallback {embQ : String → List ℝ}
    {embC : Chunk → List ℝ} {query : String}
    (h : (ragSearch embQ embC query).fallbackUsed = false) :
    (ragSearch embQ embC query).results =
      (sortResults (scoredCandidates embQ embC query)).take TOP_K := by
  unfold ragSearch at h ⊢
  by_cases hc : ((sortResults (scoredCandidates embQ embC query)).take TOP_K).isEmpty = true
  · rw [if_pos hc] at h
    simp at h
  · rw [if_neg hc]

/-! ### C1 — threshold, order and top-K invariant -/

/-- C1: whenever `ragSearch` answers without fallback, every returned pair
scores at least the similarity threshold, the list is sorted descending by
score, its length is at most the top-K bound, and ties are broken by corpus
order: restricted to any single score value, the returned list is an initial
segment of the corpus-ordered candidate list. -/
theorem ragSearch_threshold_topk (embQ : String → List ℝ) (embC : Chunk → List ℝ)
    (query : String)
    (h : (ragSearch embQ embC query).fallbackUsed = false) :
    (∀ r ∈ (ragSearch embQ embC query).results, SIMILARITY_THRESHOLD ≤ r.score) ∧
    ((ragSearch embQ embC query).results).Pairwise (fun a b => b.score ≤ a.score) ∧
    (ragSearch embQ embC query).results.length ≤ TOP_K ∧
    (∀ s : ℝ,
      ((ragSearch embQ embC query).results.filter (fun r => decide (r.score = s))) <+:
        ((scoredCandidates embQ embC query).filter (fun r => decide (r.score = s)))) := by
  rw [ragSearch_results_of_not_fallback h]
  refine ⟨?_, ?_, ?_, ?_⟩
  · intro r hr
    have h1 : r ∈ sortResults (scoredCandidates embQ embC query) :=
      List.take_subset _ _ hr
    have h2 : r ∈ scoreChunks (embQ query) embC (relevantChunksFor query) :=
      mem_sortResults.1 h1
    exact scoreChunks_score_ge _ _ _ r h2
  · exact List.Pairwise.sublist (List.take_sublist _ _) (sortResults_sorted _)
  · simp [List.length_take_le]
  · intro s
    have h1 := filterPre (fun r => decide (r.score = s))
      ⟨_, List.take_append_drop TOP_K (sortResults (scoredCandidates embQ embC query))⟩
    rw [sortResults_filter] at h1
    exact h1

/-- The cosine similarity of the one-dimensional unit vectors is `1`. -/
lemma cosine_one_one : cosineSimilarity [(1 : ℝ)] [1] = 1 := by
  simp [cosineSimilarity]

/-- The cosine similarity of two empty vectors is `0`. -/
lemma cosine_nil_nil : cosineSimilarity ([] : List ℝ) [] = 0 := by
  simp [cosineSimilarity]

/-- With the constant unit-vector oracle every candidate scores `1`. -/
lemma scoreChunks_one (cs : List Chunk) :
    scoreChunks [(1 : ℝ)] (fun _ => [(1 : ℝ)]) cs =
      cs.map (fun c => ⟨c, 1⟩) := by
  induction cs with
  | nil => rfl
  | cons c cs ih =>
    rw [scoreChunks]
    rw [if_pos]
    · rw [ih]
      simp [cosine_one_one]
    · rw [show cosineSimilarity [(1 : ℝ)] [(1 : ℝ)] = 1 from cosine_one_one]
      norm_num [SIMILARITY_THRESHOLD]

/-- With the empty-vector oracle no candidate clears the threshold. -/
lemma scoreChunks_zero (cs : List Chunk) :
    scoreChunks ([] : List ℝ) (fun _ => ([] : List ℝ)) cs = [] := by
  induction cs with
  | nil => rfl
  | cons c cs ih =>
    rw [scoreChunks, if_neg, ih]
    rw [show cosineSimilarity ([] : List ℝ) [] = 0 from cosine_nil_nil]
    norm_num [SIMILARITY_THRESHOLD]

/-- The `"contact"` intent leaves exactly one candidate chunk. -/
lemma relevant_contact_length : (relevantChunksFor "contact").length = 1 := by
  decide

/-- With the unit-vector oracle, the query `"contact"` does not fall back. -/
lemma contact_not_fallback :
    (ragSearch (fun _ => [(1 : ℝ)]) (fun _ => [(1 : ℝ)]) "contact").fallbackUsed
      = false := by
  have hscored :
      scoredCandidates (fun _ => [(1 : ℝ)]) (fun _ => [(1 : ℝ)]) "contact" =
        (relevantChunksFor "contact").map (fun c => ⟨c, 1⟩) := by
    rw [scoredCandidates]
    exact scoreChunks_one _
  have hlen :
      ((sortResults (scoredCandidates (fun _ => [(1 : ℝ)]) (fun _ => [(1 : ℝ)])
          "contact")).take TOP_K).length = 1 := by
    rw [List.length_take, length_sortResults, hscored, List.length_map,
      relevant_contact_length]
    decide
  obtain ⟨r, hr⟩ := List.length_eq_one.1 hlen
  rw [ragSearch, if_neg]
  rw [hr]
  simp

/-- Witness for C1: with the constant unit-vector oracle and the query
`"contact"`, no fallback is used and the result list respects the top-K
bound. -/
theorem ragSearch_threshold_topk_witness :
    (ragSearch (fun _ => [(1 : ℝ)]) (fun _ => [(1 : ℝ)]) "contact").fallbackUsed
        = false ∧
    (ragSearch (fun _ => [(1 : ℝ)]) (fun _ => [(1 : ℝ)]) "contact").results.length
        ≤ TOP_K :=
  ⟨contact_not_fallback,
   (ragSearch_threshold_topk (fun _ => [(1 : ℝ)]) (fun _ => [(1 : ℝ)]) "contact"
      contact_not_fallback).2.2.1⟩

/-! ### C2 — fallback invariant -/

/-- C2: whenever `ragSearch` answers with fallback, the returned chunks are
exactly the fixed fallback set — computed from the corpus, the chunks with
ids `identity-about` and `identity-philosophy` — independently of the query,
and every reported score is zero. -/
theorem ragSearch_fallback_fixed (embQ : String → List ℝ) (embC : Chunk → List ℝ)
    (query : String)
    (h : (ragSearch embQ embC query).fallbackUsed = true) :
    (ragSearch embQ embC query).results.map SearchResult.chunk = getFallbackChunks ∧
    (∀ r ∈ (ragSearch embQ embC query).results, r.score = 0) ∧
    getFallbackChunks.map Chunk.id = ["identity-about", "identity-philosophy"] := by
  have hres : (ragSearch embQ embC query).results =
      getFallbackChunks.map (fun c => ⟨c, 0⟩) := by
    unfold ragSearch at h ⊢
    by_cases hc :
        ((sortResults (scoredCandidates embQ embC query)).take TOP_K).isEmpty = true
    · rw [if_pos hc]
    · rw [if_neg hc] at h
      simp at h
  refine ⟨?_, ?_, ?_⟩
  · rw [hres, List.map_map]
    simp [Function.comp_def]
  · rw [hres]
    intro r hr
    rcases List.mem_map.1 hr with ⟨c, _, rfl⟩
    rfl
  · decide

/-- With the empty-vector oracle, the query `"contact"` falls back. -/
lemma contact_fallback :
    (ragSearch (fun _ => ([] : List ℝ)) (fun _ => ([] : List ℝ))
        "contact").fallbackUsed = true := by
  have hscored :
      scoredCandidates (fun _ => ([] : List ℝ)) (fun _ => ([] : List ℝ))
        "contact" = [] := by
    rw [scoredCandidates]
    exact scoreChunks_zero _
  rw [ragSearch, if_pos]
  rw [hscored]
  rfl

/-- Witness for C2: with the empty-vector oracle and the query `"contact"`,
the fallback branch is taken and returns exactly the fallback set. -/
theorem ragSearch_fallback_fixed_witness :
    (ragSearch (fun _ => ([] : List ℝ)) (fun _ => ([] : List ℝ))
        "contact").results.map SearchResult.chunk = getFallbackChunks :=
  (ragSearch_fallback_fixed (fun _ => ([] : List ℝ)) (fun _ => ([] : List ℝ))
    "contact" contact_fallback).1

/-! ### C10 — searches never return an empty list -/

/-- C10: for every embedding oracle and query, the results list of
`ragSearch` is non-empty; the fallback chunks `identity-about` and
`identity-philosophy` are unconditionally placed in the corpus by
`generateChunks`. -/
theorem ragSearch_results_nonempty :
    (∀ (embQ : String → List ℝ) (embC : Chunk → List ℝ) (query : String),
      (ragSearch embQ embC query).results ≠ []) ∧
    "identity-about" ∈ chunks.map Chunk.id ∧
    "identity-philosophy" ∈ chunks.map Chunk.id := by
  refine ⟨?_, by decide, by decide⟩
  intro embQ embC query
  unfold ragSearch
  by_cases hc :
      ((sortResults (scoredCandidates embQ embC query)).take TOP_K).isEmpty = true
  · rw [if_pos hc]
    have hfb : getFallbackChunks ≠ [] := by decide
    show getFallbackChunks.map (fun c => (⟨c, 0⟩ : SearchResult)) ≠ []
    intro hmap
    exact hfb (List.map_eq_nil_iff.1 hmap)
  · rw [if_neg hc]
    show (sortResults (scoredCandidates embQ embC query)).take TOP_K ≠ []
    intro hEmpty
    exact hc (by rw [hEmpty]; rfl)

end Portfolio
